import Mathlib

/-!
Shallow embedding of the quagga-router-operator sources
(src/charm.py and src/kubernetes.py) and proofs about them.

Conventions of the embedding:
* The remote cluster is reduced to the data the code reads and writes:
  whether the NetworkAttachmentDefinition named "router-net" exists, and
  the StatefulSet pod template (container security contexts and the
  pod-template annotation key "k8s.v1.cni.cncf.io/networks").
* Python exceptions become Except String; the string names the Python
  exception class that would be raised at that point.
* Mutating client calls (create, patch, delete) are modelled by returning
  the post-call cluster object together with the number of such calls
  issued, so that idempotence statements count calls directly.
* Container.exec is modelled by an environment: a connectivity flag and a
  map from argv to the exec outcome (none = exit 0, some (code, stderr) =
  ExecError with that code and stderr text).
-/

/-- Module constant NETWORK_ATTACHMENT_DEFINITION_NAME of kubernetes.py. -/
def NETWORK_ATTACHMENT_DEFINITION_NAME : String := "router-net"

/-- Outcome of the lightkube client.get call inside
network_attachment_definition_created: either the object is found, or the
call raises lightkube ApiError carrying a status reason, or it raises
httpx.HTTPStatusError carrying an HTTP status code. -/
inductive LookupResult where
  | found : LookupResult
  | apiError (reason : String) : LookupResult
  | httpStatusError (statusCode : Nat) : LookupResult
deriving DecidableEq

/-- A Python call either returns a bool or lets an exception escape. -/
inductive CheckOutcome where
  | ret (b : Bool) : CheckOutcome
  | raised : CheckOutcome
deriving DecidableEq

/-- Kubernetes.network_attachment_definition_created (kubernetes.py lines
62 to 85).  On ApiError the handler returns False when the reason is
NotFound; for any other reason the except block falls through to the final
return False on line 85.  On httpx.HTTPStatusError the code re-raises when
the status code is 404 and otherwise returns False. -/
def network_attachment_definition_created : LookupResult → CheckOutcome
  | .found => .ret true
  | .apiError reason =>
      if reason = "NotFound" then
        .ret false   -- line 75: return False
      else
        .ret false   -- except block ends, falls through to line 85: return False
  | .httpStatusError statusCode =>
      if statusCode = 404 then
        .raised      -- line 82: raise
      else
        .ret false   -- line 84 logs, then line 85: return False

/-- Healthy-cluster lookup behaviour: the GET succeeds exactly when the
NetworkAttachmentDefinition exists, and an absent object surfaces as an
ApiError with reason NotFound. -/
def lookupOf (nadExists : Bool) : LookupResult :=
  if nadExists then .found else .apiError "NotFound"

/-- Kubernetes.create_network_attachment_definition (lines 40 to 60) on a
healthy cluster, as a function of whether the object already exists.
Returns the post-call existence flag and the number of client.create calls
issued. -/
def create_network_attachment_definition (nadExists : Bool) : Bool × Nat :=
  if network_attachment_definition_created (lookupOf nadExists) = .ret true then
    (nadExists, 0)
  else
    (true, 1)

/-- Kubernetes.delete_network_attachment_definition (lines 170 to 184) on a
healthy cluster.  Returns the post-call existence flag and the number of
client.delete calls issued. -/
def delete_network_attachment_definition (nadExists : Bool) : Bool × Nat :=
  if network_attachment_definition_created (lookupOf nadExists) = .ret true then
    (false, 1)
  else
    (nadExists, 0)

/-- lightkube Capabilities model: only the add list is ever touched. -/
structure Capabilities where
  add : List String
deriving DecidableEq

/-- Security context of one container: the two fields the code reads and
writes.  An absent securityContext field is modelled by privileged false
and an empty capability list. -/
structure SecurityContext where
  privileged : Bool
  capabilities : Capabilities
deriving DecidableEq

/-- One entry of spec.template.spec.containers. -/
structure Container where
  securityContext : SecurityContext
deriving DecidableEq

/-- One element of the multus networks annotation list: the dict
with keys name, interface and ips built in
add_multus_annotation_to_statefulset (lines 113 to 117). -/
structure AttachmentDescriptor where
  name : String
  interface : String
  ips : List String
deriving DecidableEq

/-- The parts of a StatefulSet spec the code touches: the pod-template
container list and the pod-template annotation key
"k8s.v1.cni.cncf.io/networks" (none = the key is absent from the
annotations dict; some xs = the key maps to the list xs). -/
structure StatefulSetSpec where
  containers : List Container
  networks : Option (List AttachmentDescriptor)
deriving DecidableEq

/-- A fetched StatefulSet; spec = none models hasattr(sts, "spec") false. -/
structure StatefulSet where
  spec : Option StatefulSetSpec
deriving DecidableEq

deriving instance DecidableEq for Except

/-- Kubernetes.security_context_is_patched (lines 154 to 168): false when
the StatefulSet has no spec; IndexError when there is no container at
index 1; otherwise true iff privileged is set and NET_ADMIN is in the
capability add list. -/
def security_context_is_patched (s : StatefulSet) : Except String Bool :=
  match s.spec with
  | none => .ok false
  | some sp =>
    match sp.containers[1]? with
    | none => .error "IndexError"
    | some c =>
      if ¬ c.securityContext.privileged then .ok false
      else if ¬ c.securityContext.capabilities.add.contains "NET_ADMIN" then .ok false
      else .ok true

/-- Kubernetes.add_security_context_to_statefulset (lines 87 to 109).
Input is the current cluster StatefulSet (the re-fetch on line 91 returns
this same object).  Returns the post-call StatefulSet together with the
number of client.patch calls issued; errors are RuntimeError when the
object has no spec (line 95) and IndexError when container index 1 is out
of range (lines 96 to 97). -/
def add_security_context_to_statefulset (s : StatefulSet) :
    Except String (StatefulSet × Nat) :=
  match security_context_is_patched s with
  | .error e => .error e
  | .ok true => .ok (s, 0)
  | .ok false =>
    match s.spec with
    | none => .error "RuntimeError"
    | some sp =>
      match sp.containers[1]? with
      | none => .error "IndexError"
      | some _ =>
        let c2 : Container :=
          { securityContext :=
              { privileged := true, capabilities := { add := ["NET_ADMIN"] } } }
        let sp2 : StatefulSetSpec := { sp with containers := sp.containers.set 1 c2 }
        .ok ({ s with spec := some sp2 }, 1)

/-- Kubernetes.annotation_is_added_to_statefulset (lines 137 to 152):
false when the StatefulSet has no spec, false when the networks annotation
key is absent, otherwise list membership of the exact descriptor. -/
def annotation_is_added_to_statefulset (s : StatefulSet)
    (d : AttachmentDescriptor) : Bool :=
  match s.spec with
  | none => false
  | some sp =>
    match sp.networks with
    | none => false
    | some xs => xs.contains d

/-- Kubernetes.add_multus_annotation_to_statefulset (lines 111 to 136).
Builds the descriptor, returns unchanged with zero patches when it is
already present; otherwise RuntimeError when the object has no spec
(line 124), KeyError when the networks annotation key is absent (the
subscript on line 126 on a dict without the key), else appends the
descriptor and issues one merge patch. -/
def add_multus_annotation_to_statefulset (s : StatefulSet)
    (interface_name : String) (ips : List String) :
    Except String (StatefulSet × Nat) :=
  let d : AttachmentDescriptor :=
    { name := NETWORK_ATTACHMENT_DEFINITION_NAME
      interface := interface_name
      ips := ips }
  if annotation_is_added_to_statefulset s d then .ok (s, 0)
  else
    match s.spec with
    | none => .error "RuntimeError"
    | some sp =>
      match sp.networks with
      | none => .error "KeyError"
      | some xs =>
        .ok ({ s with spec := some { sp with networks := some (xs ++ [d]) } }, 1)

/-- The multus networks list of a StatefulSet, empty when the spec or the
annotation key is absent. -/
def networksOf (s : StatefulSet) : List AttachmentDescriptor :=
  match s.spec with
  | none => []
  | some sp => sp.networks.getD []

/-- The container at a given index of the pod template, when it exists. -/
def containerAt (s : StatefulSet) (i : Nat) : Option Container :=
  match s.spec with
  | none => none
  | some sp => sp.containers[i]?

/-- Environment seen by charm.py: whether Container.can_connect holds, and
what each Container.exec call does.  run argv = none models exit code 0;
run argv = some (code, stderr) models wait_output raising ops.pebble
ExecError with that exit code and captured stderr text. -/
structure ExecEnv where
  canConnect : Bool
  run : List String → Option (Int × String)

/-- Errors a charm handler can let escape: the RuntimeError raised by each
set step when the container is not connectable, or a re-raised ExecError
carrying the failing argv, exit code and stderr. -/
inductive CharmError where
  | runtimeError (msg : String) : CharmError
  | execError (command : List String) (exitCode : Int) (stderr : String) : CharmError
deriving DecidableEq

/-- Argv of the exec in QuaggaOperatorCharm.set_ip_forwarding (line 56). -/
def ip_forwarding_command : List String :=
  ["/bin/bash", "-c", "sysctl -w net.ipv4.ip_forward=1"]

/-- Argv of the exec in QuaggaOperatorCharm.set_ip_tables (line 71). -/
def ip_tables_command : List String :=
  ["/bin/bash", "-c", "iptables -t nat -A POSTROUTING -o eth0 -j MASQUERADE"]

/-- Argv of the exec in QuaggaOperatorCharm.set_ip_route (line 86). -/
def ip_route_command : List String :=
  ["/bin/bash", "-c", "ip route add 172.250.0.0/16 via 192.168.250.3"]

/-- Argv of the exec in QuaggaOperatorCharm.trap_signals (line 101). -/
def trap_signals_command : List String :=
  ["/bin/bash", "-c", "trap : TERM INT"]

/-- What one charm step produced: the exec argvs issued (in order), the
logger lines emitted, and the exception that escaped, if any. -/
structure StepOut where
  execs : List (List String)
  logs : List String
  err : Option CharmError
deriving DecidableEq

/-- The logger.error lines emitted inside the except ExecError handler:
the exit-code header, then one indented line per line of stderr
(e.stderr.splitlines() is modelled as splitting on newline). -/
def execErrorLogs (code : Int) (stderr : String) : List String :=
  s!"Exited with code {code}. Stderr:" :: (stderr.splitOn "\n").map (fun l => "    " ++ l)

/-- Common body of the four set steps of charm.py (each is this shape with
its own argv and success log line): raise RuntimeError when the container
is not connectable, exec the command, and on ExecError log the stderr
lines and re-raise. -/
def runExecStep (env : ExecEnv) (command : List String) (successLog : String) : StepOut :=
  if env.canConnect then
    match env.run command with
    | none => { execs := [command], logs := [successLog], err := none }
    | some (code, stderr) =>
        { execs := [command], logs := execErrorLogs code stderr
          err := some (.execError command code stderr) }
  else
    { execs := [], logs := [], err := some (.runtimeError "Container is not ready") }

/-- QuaggaOperatorCharm.set_ip_forwarding (charm.py lines 52 to 65). -/
def set_ip_forwarding (env : ExecEnv) : StepOut :=
  runExecStep env ip_forwarding_command "Successfully set ip forwarding"

/-- QuaggaOperatorCharm.set_ip_tables (charm.py lines 67 to 80). -/
def set_ip_tables (env : ExecEnv) : StepOut :=
  runExecStep env ip_tables_command "Successfully set ip tables"

/-- QuaggaOperatorCharm.set_ip_route (charm.py lines 82 to 95). -/
def set_ip_route (env : ExecEnv) : StepOut :=
  runExecStep env ip_route_command "Successfully set ip routes"

/-- QuaggaOperatorCharm.trap_signals (charm.py lines 97 to 110). -/
def trap_signals (env : ExecEnv) : StepOut :=
  runExecStep env trap_signals_command "Successfully set trap signals"

/-- Sequencing of two charm steps: when the first raises, the second never
runs (its execs and logs are dropped); otherwise outputs concatenate. -/
def stepSeq (a b : StepOut) : StepOut :=
  match a.err with
  | some _ => a
  | none => { execs := a.execs ++ b.execs, logs := a.logs ++ b.logs, err := b.err }

/-- QuaggaOperatorCharm.prepare_container (charm.py lines 46 to 50): the
four steps in source order, aborting at the first exception. -/
def prepare_container (env : ExecEnv) : StepOut :=
  stepSeq (stepSeq (stepSeq (set_ip_forwarding env) (set_ip_tables env))
      (set_ip_route env))
    (trap_signals env)

/-- Unit status as the handler leaves it; unset models a status the
handler did not assign. -/
inductive UnitStatus where
  | unset : UnitStatus
  | waiting (msg : String) : UnitStatus
  | active : UnitStatus
deriving DecidableEq

/-- What one delivery of the pebble-ready event produced. -/
structure PebbleReadyOut where
  status : UnitStatus
  deferred : Bool
  execs : List (List String)
  layerApplied : Bool
  err : Option CharmError
deriving DecidableEq

/-- QuaggaOperatorCharm.on_quagga_pebble_ready (charm.py lines 36 to 44):
when the container is not connectable, set waiting status, defer and
return; otherwise run prepare_container, then add the pebble layer and
replan (layerApplied), then set active status.  An exception escaping
prepare_container skips the layer application and leaves status
unassigned. -/
def on_quagga_pebble_ready (env : ExecEnv) : PebbleReadyOut :=
  if env.canConnect then
    let p := prepare_container env
    match p.err with
    | some e =>
        { status := .unset, deferred := false, execs := p.execs
          layerApplied := false, err := some e }
    | none =>
        { status := .active, deferred := false, execs := p.execs
          layerApplied := true, err := none }
  else
    { status := .waiting "Waiting for workload container to be ready"
      deferred := true, execs := [], layerApplied := false, err := none }

/-! Concrete sample objects used to instantiate the theorems below. -/

/-- A container with no privileges and no capabilities. -/
def plainContainer : Container :=
  { securityContext := { privileged := false, capabilities := { add := [] } } }

/-- A container already carrying the patched security context. -/
def patchedContainer : Container :=
  { securityContext := { privileged := true, capabilities := { add := ["NET_ADMIN"] } } }

/-- A StatefulSet spec whose container at index 1 is not yet patched. -/
def sampleSpecUnpatched : StatefulSetSpec :=
  { containers := [plainContainer, plainContainer], networks := some [] }

/-- A StatefulSet whose container at index 1 is not yet patched. -/
def sampleUnpatched : StatefulSet := { spec := some sampleSpecUnpatched }

/-- The StatefulSet obtained from sampleUnpatched by the security-context
patch. -/
def samplePatched : StatefulSet :=
  { spec := some { containers := [plainContainer, patchedContainer], networks := some [] } }

/-- The descriptor built for interface eth1 with ips [1.2.3.4/24]. -/
def routerDescriptor : AttachmentDescriptor :=
  { name := "router-net", interface := "eth1", ips := ["1.2.3.4/24"] }

/-- A descriptor with the same interface name but different ips. -/
def otherIpsDescriptor : AttachmentDescriptor :=
  { name := "router-net", interface := "eth1", ips := ["5.6.7.8/24"] }

/-- A StatefulSet whose networks list holds only otherIpsDescriptor. -/
def sampleWithOther : StatefulSet :=
  { spec := some { containers := [plainContainer, plainContainer]
                   networks := some [otherIpsDescriptor] } }

/-- sampleWithOther after appending routerDescriptor. -/
def sampleAfterAdd : StatefulSet :=
  { spec := some { containers := [plainContainer, plainContainer]
                   networks := some [otherIpsDescriptor, routerDescriptor] } }

/-- A StatefulSet with a spec and an annotations dict that lacks the
networks key. -/
def sampleNoKey : StatefulSet :=
  { spec := some { containers := [plainContainer, plainContainer], networks := none } }

/-- A connectable container environment where every exec exits 0. -/
def allOkEnv : ExecEnv := { canConnect := true, run := fun _ => none }

/-- An environment whose container is not connectable. -/
def noConnectEnv : ExecEnv := { canConnect := false, run := fun _ => none }

/-! Claim theorems. -/

/-- C1 counterexample: an ApiError whose reason is Forbidden (not a
not-found condition) is returned as false by
network_attachment_definition_created instead of being propagated, so the
claim that every non-not-found lookup error is surfaced as an error is
false on the code. -/
theorem C1_counterexample :
    network_attachment_definition_created (.apiError "Forbidden") =
      CheckOutcome.ret false := by
  decide

/-- C1 (amended): a lookup ending in an ApiError is returned as false
whatever its reason (the NotFound reason explicitly, every other reason by
falling through to the final return False); the only propagated lookup
failure is an httpx HTTPStatusError with status code 404 (absent CRD),
while any other HTTPStatusError is also returned as false. -/
theorem C1_lookup_error_handling :
    network_attachment_definition_created .found = .ret true ∧
    (∀ reason : String,
      network_attachment_definition_created (.apiError reason) = .ret false) ∧
    network_attachment_definition_created (.httpStatusError 404) = .raised ∧
    (∀ statusCode : Nat, statusCode ≠ 404 →
      network_attachment_definition_created (.httpStatusError statusCode) = .ret false) := by
  refine ⟨rfl, fun reason => ?_, by decide, fun statusCode h => ?_⟩
  · simp [network_attachment_definition_created]
  · simp [network_attachment_definition_created, h]

/-- C1 witness: the amended theorem evaluated at status code 500. -/
theorem C1_lookup_error_handling_witness :
    network_attachment_definition_created (.httpStatusError 500) = .ret false :=
  C1_lookup_error_handling.2.2.2 500 (by decide)

/-- C2: over two consecutive calls on a healthy cluster (the second call
seeing the state the first call left), create_network_attachment_definition
issues exactly one create when the object was absent and zero when it was
already present; in particular a call on an existing object issues no
create at all. -/
theorem C2_create_idempotent :
    (∀ nadExists : Bool,
      (create_network_attachment_definition nadExists).2 +
        (create_network_attachment_definition
          (create_network_attachment_definition nadExists).1).2 =
        if nadExists then 0 else 1) ∧
    (create_network_attachment_definition true).2 = 0 := by
  decide

/-- C6: delete_network_attachment_definition issues a delete only when the
object exists; over two consecutive calls (the second seeing the state the
first left) at most one delete is issued, and the call on an absent object
returns normally with zero deletes. -/
theorem C6_delete_idempotent :
    (∀ nadExists : Bool,
      (delete_network_attachment_definition nadExists).2 +
        (delete_network_attachment_definition
          (delete_network_attachment_definition nadExists).1).2 =
        if nadExists then 1 else 0) ∧
    (delete_network_attachment_definition false).2 = 0 := by
  decide


/-- C3: when the container at index 1 already has privileged true and the
NET_ADMIN capability, add_security_context_to_statefulset issues zero
patch calls; when it does not, it issues exactly one patch and the
resulting container at index 1 has privileged true and a capability list
containing NET_ADMIN. -/
theorem C3_security_context_patch (s : StatefulSet) (sp : StatefulSetSpec)
    (c : Container) (hs : s.spec = some sp) (hc : sp.containers[1]? = some c) :
    (security_context_is_patched s = .ok true →
      add_security_context_to_statefulset s = .ok (s, 0)) ∧
    (security_context_is_patched s = .ok false →
      ∃ s2 c2, add_security_context_to_statefulset s = .ok (s2, 1) ∧
        containerAt s2 1 = some c2 ∧
        c2.securityContext.privileged = true ∧
        c2.securityContext.capabilities.add.contains "NET_ADMIN" = true) := by
  have hlen : 1 < sp.containers.length := by
    rcases List.getElem?_eq_some.mp hc with ⟨hlt, _⟩
    exact hlt
  constructor
  · intro h
    simp only [add_security_context_to_statefulset, h]
  · intro h
    simp only [add_security_context_to_statefulset, h, hs, hc]
    refine ⟨_,
      { securityContext := { privileged := true, capabilities := { add := ["NET_ADMIN"] } } },
      rfl, ?_, rfl, rfl⟩
    simp only [containerAt]
    exact List.getElem?_set_self hlen

/-- C3 witness: the theorem evaluated at a StatefulSet whose container at
index 1 is unpatched. -/
theorem C3_security_context_patch_witness :
    ∃ s2 c2, add_security_context_to_statefulset sampleUnpatched = .ok (s2, 1) ∧
      containerAt s2 1 = some c2 ∧
      c2.securityContext.privileged = true ∧
      c2.securityContext.capabilities.add.contains "NET_ADMIN" = true :=
  (C3_security_context_patch sampleUnpatched sampleSpecUnpatched plainContainer
    rfl rfl).2 (by decide)

/-- C10: whenever add_security_context_to_statefulset issues a patch, the
capability list of the container at index 1 becomes exactly the singleton
NET_ADMIN (previous capabilities of that container are discarded), every
container at an index other than 1 is left unchanged, and the networks
annotation list is untouched. -/
theorem C10_patch_frame (s s2 : StatefulSet)
    (h : add_security_context_to_statefulset s = .ok (s2, 1)) :
    (∃ c2, containerAt s2 1 = some c2 ∧
      c2.securityContext.privileged = true ∧
      c2.securityContext.capabilities.add = ["NET_ADMIN"]) ∧
    (∀ i, i ≠ 1 → containerAt s2 i = containerAt s i) ∧
    networksOf s2 = networksOf s := by
  unfold add_security_context_to_statefulset at h
  split at h
  · exact absurd h (by simp)
  · exact absurd h (by simp)
  · split at h
    · exact absurd h (by simp)
    · rename_i sp hs
      split at h
      · exact absurd h (by simp)
      · rename_i c hc
        have hlen : 1 < sp.containers.length := by
          rcases List.getElem?_eq_some.mp hc with ⟨hlt, _⟩
          exact hlt
        simp only [Except.ok.injEq, Prod.mk.injEq, and_true] at h
        subst h
        refine ⟨⟨{ securityContext :=
            { privileged := true, capabilities := { add := ["NET_ADMIN"] } } },
          ?_, rfl, rfl⟩, ?_, ?_⟩
        · simp only [containerAt]
          exact List.getElem?_set_self hlen
        · intro i hi
          simp only [containerAt, hs]
          exact List.getElem?_set_ne (Ne.symm hi)
        · simp only [networksOf, hs]

/-- C10 witness: the theorem evaluated at the unpatched sample, whose
patch result is samplePatched. -/
theorem C10_patch_frame_witness :
    (∃ c2, containerAt samplePatched 1 = some c2 ∧
      c2.securityContext.privileged = true ∧
      c2.securityContext.capabilities.add = ["NET_ADMIN"]) ∧
    (∀ i, i ≠ 1 → containerAt samplePatched i = containerAt sampleUnpatched i) ∧
    networksOf samplePatched = networksOf sampleUnpatched :=
  C10_patch_frame sampleUnpatched samplePatched (by decide)

/-- C4: add_multus_annotation_to_statefulset preserves the no-duplicate
invariant for the descriptor it builds: starting from a list holding at
most one copy of the descriptor, a successful call leaves at most one
copy, a repeated call with the same interface and ips is a no-op issuing
zero patches, and no existing entry (in particular one with the same
interface but different ips, matched by full structural equality) is
removed. -/
theorem C4_no_duplicate_descriptors (s s1 : StatefulSet)
    (interface_name : String) (ips : List String) (n : Nat)
    (hcount : (networksOf s).count
      { name := NETWORK_ATTACHMENT_DEFINITION_NAME
        interface := interface_name, ips := ips } ≤ 1)
    (h : add_multus_annotation_to_statefulset s interface_name ips = .ok (s1, n)) :
    (networksOf s1).count
      { name := NETWORK_ATTACHMENT_DEFINITION_NAME
        interface := interface_name, ips := ips } ≤ 1 ∧
    add_multus_annotation_to_statefulset s1 interface_name ips = .ok (s1, 0) ∧
    ∀ d ∈ networksOf s, d ∈ networksOf s1 := by
  by_cases hmem : annotation_is_added_to_statefulset s
      { name := NETWORK_ATTACHMENT_DEFINITION_NAME
        interface := interface_name, ips := ips } = true
  · have hh : add_multus_annotation_to_statefulset s interface_name ips = .ok (s, 0) := by
      simp [add_multus_annotation_to_statefulset, hmem]
    rw [hh] at h
    obtain ⟨h2, -⟩ : s1 = s ∧ n = 0 := by simpa using h.symm
    subst h2
    exact ⟨hcount, hh, fun d hd => hd⟩
  · rcases hs : s.spec with _ | sp
    · have hh : add_multus_annotation_to_statefulset s interface_name ips =
          .error "RuntimeError" := by
        simp [add_multus_annotation_to_statefulset, hmem, hs]
      rw [hh] at h
      cases h
    · rcases hn : sp.networks with _ | xs
      · have hh : add_multus_annotation_to_statefulset s interface_name ips =
            .error "KeyError" := by
          simp [add_multus_annotation_to_statefulset, hmem, hs, hn]
        rw [hh] at h
        cases h
      · have hnotmem :
            ({ name := NETWORK_ATTACHMENT_DEFINITION_NAME
               interface := interface_name, ips := ips } : AttachmentDescriptor) ∉ xs := by
          intro hmem2
          exact hmem (by simp [annotation_is_added_to_statefulset, hs, hn, hmem2])
      
        simp only [add_multus_annotation_to_statefulset, hmem, if_false, hs, hn,
          Bool.false_eq_true, reduceIte, Except.ok.injEq, Prod.mk.injEq] at h
        obtain ⟨h2, -⟩ := h
        subst h2
        refine ⟨?_, ?_, ?_⟩
        · simp only [networksOf, Option.getD_some]
          rw [List.count_append, List.count_eq_zero_of_not_mem hnotmem]
          simp [List.count_cons]
        · have hmem3 : annotation_is_added_to_statefulset
              { spec := some { sp with networks := some (xs ++
                [{ name := NETWORK_ATTACHMENT_DEFINITION_NAME
                   interface := interface_name, ips := ips }]) } }
              { name := NETWORK_ATTACHMENT_DEFINITION_NAME
                interface := interface_name, ips := ips } = true := by
            simp [annotation_is_added_to_statefulset]
          simp [add_multus_annotation_to_statefulset, hmem3]
        · intro d hd
          simp only [networksOf, hs, hn, Option.getD_some] at hd
          simp only [networksOf, Option.getD_some, List.mem_append]
          exact Or.inl hd

/-- C4 witness: adding the eth1 descriptor to a list already holding an
entry with the same interface but different ips appends it (no dedup by
interface name), after which the list holds one copy and a repeated add is
a no-op. -/
theorem C4_no_duplicate_descriptors_witness :
    (networksOf sampleAfterAdd).count
      { name := NETWORK_ATTACHMENT_DEFINITION_NAME
        interface := "eth1", ips := ["1.2.3.4/24"] } ≤ 1 ∧
    add_multus_annotation_to_statefulset sampleAfterAdd "eth1" ["1.2.3.4/24"] =
      .ok (sampleAfterAdd, 0) ∧
    ∀ d ∈ networksOf sampleWithOther, d ∈ networksOf sampleAfterAdd :=
  C4_no_duplicate_descriptors sampleWithOther sampleAfterAdd "eth1" ["1.2.3.4/24"] 1
    (by decide) (by decide)

/-- C5 counterexample: on a StatefulSet with a spec whose annotations dict
lacks the networks key, add_multus_annotation_to_statefulset raises
KeyError (the subscript on the absent key) instead of initializing the key
and appending, so the claim that the call does not fail is false. -/
theorem C5_counterexample :
    add_multus_annotation_to_statefulset sampleNoKey "eth1" ["1.2.3.4/24"] =
      .error "KeyError" := by
  decide

/-- C5 (amended): when the pod-template annotations map exists but does
not contain the networks key, add_multus_annotation_to_statefulset fails
with KeyError and issues no patch; the key is never initialized, so the
descriptor is appended only when the key is already present. -/
theorem C5_absent_key_raises (s : StatefulSet) (sp : StatefulSetSpec)
    (interface_name : String) (ips : List String)
    (hs : s.spec = some sp) (hn : sp.networks = none) :
    add_multus_annotation_to_statefulset s interface_name ips = .error "KeyError" := by
  have hadd : annotation_is_added_to_statefulset s
      { name := NETWORK_ATTACHMENT_DEFINITION_NAME
        interface := interface_name, ips := ips } = false := by
    simp [annotation_is_added_to_statefulset, hs, hn]
  simp [add_multus_annotation_to_statefulset, hadd, hs, hn]

/-- C5 witness: the amended theorem evaluated at the key-less sample. -/
theorem C5_absent_key_raises_witness :
    add_multus_annotation_to_statefulset sampleNoKey "eth2" ["10.0.0.1/24"] =
      .error "KeyError" :=
  C5_absent_key_raises sampleNoKey
    { containers := [plainContainer, plainContainer], networks := none }
    "eth2" ["10.0.0.1/24"] rfl rfl

/-- C7: with a connectable container, prepare_container issues its exec
commands in the fixed order forwarding, NAT rule, route, trap signals, one
exec per step; when every step exits 0 all four are issued and no error
escapes; when a step fails, the steps after it are skipped (their execs
never issued), the captured stderr is logged line by line after the
exit-code header, and the ExecError is re-raised with no rollback of the
already-issued commands. -/
theorem C7_bootstrap_sequence (env : ExecEnv) (hc : env.canConnect = true) :
    (env.run ip_forwarding_command = none → env.run ip_tables_command = none →
      env.run ip_route_command = none → env.run trap_signals_command = none →
      (prepare_container env).execs =
        [ip_forwarding_command, ip_tables_command, ip_route_command,
          trap_signals_command] ∧
      (prepare_container env).err = none) ∧
    (∀ code stderr, env.run ip_forwarding_command = some (code, stderr) →
      (prepare_container env).execs = [ip_forwarding_command] ∧
      (prepare_container env).err =
        some (.execError ip_forwarding_command code stderr) ∧
      (prepare_container env).logs = execErrorLogs code stderr) ∧
    (∀ code stderr, env.run ip_forwarding_command = none →
      env.run ip_tables_command = some (code, stderr) →
      (prepare_container env).execs = [ip_forwarding_command, ip_tables_command] ∧
      (prepare_container env).err = some (.execError ip_tables_command code stderr) ∧
      (prepare_container env).logs =
        "Successfully set ip forwarding" :: execErrorLogs code stderr) ∧
    (∀ code stderr, env.run ip_forwarding_command = none →
      env.run ip_tables_command = none →
      env.run ip_route_command = some (code, stderr) →
      (prepare_container env).execs =
        [ip_forwarding_command, ip_tables_command, ip_route_command] ∧
      (prepare_container env).err = some (.execError ip_route_command code stderr) ∧
      (prepare_container env).logs =
        "Successfully set ip forwarding" :: "Successfully set ip tables" ::
          execErrorLogs code stderr) ∧
    (∀ code stderr, env.run ip_forwarding_command = none →
      env.run ip_tables_command = none → env.run ip_route_command = none →
      env.run trap_signals_command = some (code, stderr) →
      (prepare_container env).execs =
        [ip_forwarding_command, ip_tables_command, ip_route_command,
          trap_signals_command] ∧
      (prepare_container env).err =
        some (.execError trap_signals_command code stderr) ∧
      (prepare_container env).logs =
        "Successfully set ip forwarding" :: "Successfully set ip tables" ::
          "Successfully set ip routes" :: execErrorLogs code stderr) := by
  refine ⟨fun h1 h2 h3 h4 => ?_, fun code stderr h1 => ?_,
    fun code stderr h1 h2 => ?_, fun code stderr h1 h2 h3 => ?_,
    fun code stderr h1 h2 h3 h4 => ?_⟩
  · simp [prepare_container, stepSeq, set_ip_forwarding, set_ip_tables,
      set_ip_route, trap_signals, runExecStep, hc, h1, h2, h3, h4]
  · simp [prepare_container, stepSeq, set_ip_forwarding, set_ip_tables,
      set_ip_route, trap_signals, runExecStep, hc, h1]
  · simp [prepare_container, stepSeq, set_ip_forwarding, set_ip_tables,
      set_ip_route, trap_signals, runExecStep, hc, h1, h2]
  · simp [prepare_container, stepSeq, set_ip_forwarding, set_ip_tables,
      set_ip_route, trap_signals, runExecStep, hc, h1, h2, h3]
  · simp [prepare_container, stepSeq, set_ip_forwarding, set_ip_tables,
      set_ip_route, trap_signals, runExecStep, hc, h1, h2, h3, h4]

/-- C7 witness: the all-steps-succeed branch of the theorem evaluated in
the environment where every exec exits 0. -/
theorem C7_bootstrap_sequence_witness :
    (prepare_container allOkEnv).execs =
      [ip_forwarding_command, ip_tables_command, ip_route_command,
        trap_signals_command] ∧
    (prepare_container allOkEnv).err = none :=
  (C7_bootstrap_sequence allOkEnv rfl).1 rfl rfl rfl rfl

/-- C8: on a pebble-ready delivery with an unreachable container the
handler defers the event, sets waiting status and issues zero exec calls;
and the unit status comes out active only when the container was
connectable, the whole bootstrap sequence raised nothing, and the pebble
layer was applied. -/
theorem C8_defer_when_unreachable (env : ExecEnv) :
    (env.canConnect = false →
      on_quagga_pebble_ready env =
        { status := .waiting "Waiting for workload container to be ready"
          deferred := true, execs := [], layerApplied := false, err := none }) ∧
    ((on_quagga_pebble_ready env).status = .active →
      env.canConnect = true ∧ (prepare_container env).err = none ∧
      (on_quagga_pebble_ready env).layerApplied = true) := by
  constructor
  · intro h
    simp [on_quagga_pebble_ready, h]
  · intro h
    rcases hcc : env.canConnect with _ | _
    · rw [on_quagga_pebble_ready, hcc] at h
      simp at h
    · refine ⟨rfl, ?_, ?_⟩ <;>
        rcases hendErr : (prepare_container env).err with _ | e <;>
          simp_all [on_quagga_pebble_ready, hcc, hendErr]

/-- C8 witness: the theorem applied to the environment whose container is
unreachable. -/
theorem C8_defer_when_unreachable_witness :
    on_quagga_pebble_ready noConnectEnv =
      { status := .waiting "Waiting for workload container to be ready"
        deferred := true, execs := [], layerApplied := false, err := none } :=
  (C8_defer_when_unreachable noConnectEnv).1 rfl

/-- C9 counterexample: the route-add exec issued by set_ip_route is a
single shell invocation whose argv is bin-bash dash-c with the whole ip
route command as one string, not the six-element argv the claim states. -/
theorem C9_counterexample :
    (set_ip_route allOkEnv).execs =
      [["/bin/bash", "-c", "ip route add 172.250.0.0/16 via 192.168.250.3"]] ∧
    ["/bin/bash", "-c", "ip route add 172.250.0.0/16 via 192.168.250.3"] ≠
      ["ip", "route", "add", "172.250.0.0/16", "via", "192.168.250.3"] := by
  constructor
  · rfl
  · decide

/-- C9 (amended): with a connectable container, every route-add exec
issued by set_ip_route has argv exactly
[/bin/bash, -c, ip route add network via gateway] in one shell string, and
the charm issues exactly one such command, for the single hardcoded route
172.250.0.0/16 via 192.168.250.3. -/
theorem C9_route_command_shape (env : ExecEnv) (hc : env.canConnect = true) :
    (set_ip_route env).execs =
      [["/bin/bash", "-c", "ip route add 172.250.0.0/16 via 192.168.250.3"]] := by
  have hgoal : (set_ip_route env).execs = [ip_route_command] := by
    rcases hr : env.run ip_route_command with _ | ⟨code, stderr⟩ <;>
      simp [set_ip_route, runExecStep, hc, hr]
  rw [hgoal]
  rfl

/-- C9 witness: the amended theorem evaluated in the all-exits-0
environment. -/
theorem C9_route_command_shape_witness :
    (set_ip_route allOkEnv).execs =
      [["/bin/bash", "-c", "ip route add 172.250.0.0/16 via 192.168.250.3"]] :=
  C9_route_command_shape allOkEnv rfl
